import Mathlib

/-!
# Verification of the RGB status light channel handler

A shallow embedding of `src/spi_rgbleds/RgbLightHandler.cpp` from the
OctoPrint-rgbStatus repository.  The handler owns two LED patterns (left and
right), runs a background refresh loop that samples the patterns and pushes
color pairs to a PWM output sink, and, when enabled, runs a color-interpolating
transition whenever a pattern is replaced.

Modelling conventions:
* C++ `vector<float>` colors (4 channels, `NUM_COLORS = 4`) become a `Color`
  structure with four rational fields.  Rationals stand for IEEE floats with
  exact arithmetic; the one float behavior that is *not* exact-real — division
  by zero producing `inf`/`NaN` — is modelled explicitly by the `FloatQ` type,
  because the transition code performs the division
  `transitionTime / (float)transitionRefreshInterval` before its zero check.
* The PWM driver (`pwmDriver->setRgbw`) is an external sink; each modelled
  routine returns the list of color pairs it pushes, in order.
* The worker thread and mutex are not modelled as such; the loop body between
  lock and unlock is modelled as a pure state-transition function
  (`workerTick`) on the handler state plus the loop's local variables.
* The C++ loop counter `i` in `transitionBoth` is a signed 32-bit `int`; once
  `i` reaches `INT_MAX` the increment overflows (undefined behavior).  The
  model therefore cuts every trace after `2^31` iterations (`intLoopFuel`),
  the number of iterations that are executed with defined behavior.
-/

/-- A 4-channel RGBW color, `vector<float>` with `NUM_COLORS = 4` in the
source.  Channels are modelled as exact rationals. -/
structure Color where
  r : ℚ
  g : ℚ
  b : ℚ
  w : ℚ
  deriving DecidableEq, Repr

/-- The float value `maxi = transitionTime / (float)transitionRefreshInterval`
computed at line 164 of `RgbLightHandler.cpp`.  For a zero divisor, IEEE float
division yields `+inf` (nonzero dividend) or `NaN` (zero dividend); otherwise
the quotient is modelled exactly. -/
inductive FloatQ where
  | nan : FloatQ
  | inf : FloatQ
  | fin : ℚ → FloatQ
  deriving DecidableEq, Repr

/-- The quotient `transitionTime / (float)transitionRefreshInterval` (line 164). -/
def maxiOf (transitionTime transitionRefreshInterval : ℕ) : FloatQ :=
  if transitionRefreshInterval = 0 then
    if transitionTime = 0 then FloatQ.nan else FloatQ.inf
  else
    FloatQ.fin ((transitionTime : ℚ) / (transitionRefreshInterval : ℚ))

/-- The float comparison `maxi == 0.0` (line 167).  `NaN == 0.0` and
`inf == 0.0` are both false in IEEE arithmetic. -/
def FloatQ.isZero : FloatQ → Bool
  | FloatQ.fin q => q = 0
  | _ => false

/-- The loop guard `(float)i < maxi` (line 178): always false against `NaN`,
always true against `+inf`, and the exact comparison against a finite value. -/
def FloatQ.ltGuard (m : FloatQ) (i : ℕ) : Bool :=
  match m with
  | FloatQ.nan => false
  | FloatQ.inf => true
  | FloatQ.fin q => (i : ℚ) < q

/-- Per-channel delta `(to - from) / maxi` (lines 173–174).  A finite quantity
divided by `+inf` is `0`.  Division by `NaN` yields `NaN` channels; the loop
guard is always false for `NaN`, so those channel values are never pushed, and
they are represented by `0` here. -/
def FloatQ.divDelta (m : FloatQ) (x : ℚ) : ℚ :=
  match m with
  | FloatQ.nan => 0
  | FloatQ.inf => 0
  | FloatQ.fin q => x / q

/-- Channel clamp `max(min(v, 1.0f), 0.0f)` (lines 183–184). -/
def clamp01 (x : ℚ) : ℚ := max (min x 1) 0

/-- One transition step for one side: add the delta and clamp every channel
(lines 183–184). -/
def stepColor (delta c : Color) : Color :=
  { r := clamp01 (c.r + delta.r)
    g := clamp01 (c.g + delta.g)
    b := clamp01 (c.b + delta.b)
    w := clamp01 (c.w + delta.w) }

/-- Channel-wise `(to - from) / maxi` for one side (lines 171–175). -/
def deltaColor (m : FloatQ) (src tgt : Color) : Color :=
  { r := m.divDelta (tgt.r - src.r)
    g := m.divDelta (tgt.g - src.g)
    b := m.divDelta (tgt.b - src.b)
    w := m.divDelta (tgt.w - src.w) }

/-- Iterations of the loop counter `int i` that execute with defined behavior
before `i++` overflows `INT_MAX`: `2^31`. -/
def intLoopFuel : ℕ := 2 ^ 31

/-- The transition loop `for (int i = 0; i < maxi; i++)` (lines 178–189),
returning the list of color pairs pushed to the PWM driver.  `fuel` bounds the
trace at the point where the C++ loop counter overflows. -/
def transLoop (m : FloatQ) (leftDelta rightDelta : Color) :
    ℕ → ℕ → Color → Color → List (Color × Color)
  | 0, _, _, _ => []
  | fuel + 1, i, leftCur, rightCur =>
    if m.ltGuard i then
      let leftNext := stepColor leftDelta leftCur
      let rightNext := stepColor rightDelta rightCur
      (leftNext, rightNext) ::
        transLoop m leftDelta rightDelta fuel (i + 1) leftNext rightNext
    else []

/-- Modelled from the spec: `RgbLightPattern` (its header is not part of the
sources).  Per the spec a pattern exposes `currentColor() -> Color`,
a `refreshIntervalMs` positive integer, and `clone()` producing an independent
instance.  The claims under verification only ever install constant-color
patterns, so `getColor` is modelled as a fixed color; `clone` is the identity
under value semantics. -/
structure Pattern where
  refreshInterval : ℕ
  getColor : Color
  deriving DecidableEq, Repr

/-- Modelled from the spec: `RgbLightConstant` (its header/source is not part
of the sources), the baseline constant-color pattern.  Its construction takes
the color; the spec does not fix its refresh interval, which is therefore a
parameter here. -/
def RgbLightConstant (c : Color) (refreshInterval : ℕ) : Pattern :=
  { refreshInterval := refreshInterval, getColor := c }

/-- The handler state protected by `patternMutex`, plus the lifecycle flag
`isRunning`.  The worker thread handle and the PWM driver are not state in the
model: pushes to the driver are returned as lists by the modelled routines. -/
structure HandlerState where
  patternLeft : Pattern
  patternRight : Pattern
  patternsChanged : Bool
  transitionsEnabled : Bool
  isRunning : Bool
  transitionRefreshInterval : ℕ
  transitionTime : ℕ
  deriving DecidableEq, Repr

namespace RgbLightHandler

/-- Constructor `RgbLightHandler(vector<float> defaultColor)` (lines 3–12):
transitions disabled.  The C++ code leaves `transitionRefreshInterval` and
`transitionTime` uninitialized in this constructor; they are never read while
`transitionsEnabled` is false and are modelled as `0`.  `isRunning` is the
not-yet-started lifecycle state. -/
def mkDefault (defaultColor : Color) (constantRefresh : ℕ) : HandlerState :=
  { patternLeft := RgbLightConstant defaultColor constantRefresh
    patternRight := RgbLightConstant defaultColor constantRefresh
    patternsChanged := false
    transitionsEnabled := false
    isRunning := false
    transitionRefreshInterval := 0
    transitionTime := 0 }

/-- Constructor `RgbLightHandler(defaultColor, transitionRefreshInterval,
transitionTime)` (lines 14–25): transitions enabled. -/
def mkTransitions (defaultColor : Color) (constantRefresh : ℕ)
    (transitionRefreshInterval transitionTime : ℕ) : HandlerState :=
  { patternLeft := RgbLightConstant defaultColor constantRefresh
    patternRight := RgbLightConstant defaultColor constantRefresh
    patternsChanged := false
    transitionsEnabled := true
    isRunning := false
    transitionRefreshInterval := transitionRefreshInterval
    transitionTime := transitionTime }

/-- Operation `RgbLightHandler::stop` (lines 38–48): if running, clear `isRunning` and
join the worker; otherwise do nothing.  The join itself is thread bookkeeping
with no effect on the modelled state. -/
def stop (s : HandlerState) : HandlerState :=
  if s.isRunning then { s with isRunning := false } else s

/-- Line 116: the first statement of `RgbLightHandler::worker` sets
`isRunning = true` (reached via `start()` spawning the worker thread). -/
def workerBegin (s : HandlerState) : HandlerState :=
  { s with isRunning := true }

/-- Operation `RgbLightHandler::setPatternLeft` (lines 52–67): under the lock, delete the
old left pattern, install a clone of the argument, set the dirty flag.  Clone
is the identity under the model's value semantics. -/
def setPatternLeft (s : HandlerState) (p : Pattern) : HandlerState :=
  { s with patternLeft := p, patternsChanged := true }

/-- Operation `RgbLightHandler::setPatternRight` (lines 71–86). -/
def setPatternRight (s : HandlerState) (p : Pattern) : HandlerState :=
  { s with patternRight := p, patternsChanged := true }

/-- Operation `RgbLightHandler::setPatterns` (lines 90–110): both sides receive their own
clone of the argument. -/
def setPatterns (s : HandlerState) (p : Pattern) : HandlerState :=
  { s with patternLeft := p, patternRight := p, patternsChanged := true }

/-- Routine `RgbLightHandler::transitionBoth` (lines 154–189): compute the targets from
the installed patterns, compute `maxi`, return early when `maxi == 0.0`,
otherwise compute the per-step deltas and run the push loop.  Returns the list
of color pairs pushed to the PWM driver. -/
def transitionBoth (s : HandlerState) (leftFrom rightFrom : Color) :
    List (Color × Color) :=
  let leftTo := s.patternLeft.getColor
  let rightTo := s.patternRight.getColor
  let maxi := maxiOf s.transitionTime s.transitionRefreshInterval
  if maxi.isZero then []
  else
    let leftDelta := deltaColor maxi leftFrom leftTo
    let rightDelta := deltaColor maxi rightFrom rightTo
    transLoop maxi leftDelta rightDelta intLoopFuel 0 leftFrom rightFrom

/-- The outcome of one iteration of the worker loop body (lines 123–150):
the updated handler state, the updated local variables `colorLeft` and
`colorRight`, every pair pushed to the PWM driver during the iteration
(transition pushes, then the sampled pair of line 146), and the sleep
interval of line 149. -/
structure TickResult where
  state : HandlerState
  colorLeft : Color
  colorRight : Color
  pushes : List (Color × Color)
  interval : ℕ
  deriving DecidableEq, Repr

/-- One iteration of the `while (this->isRunning)` worker loop body
(lines 125–149), given the current local `colorLeft`/`colorRight`. -/
def workerTick (s : HandlerState) (colorLeft colorRight : Color) : TickResult :=
  let transPushes :=
    if s.patternsChanged && s.transitionsEnabled then
      transitionBoth s colorLeft colorRight
    else []
  let s1 :=
    if s.patternsChanged && s.transitionsEnabled then
      { s with patternsChanged := false }
    else s
  let interval := min s1.patternLeft.refreshInterval s1.patternRight.refreshInterval
  let cl := s1.patternLeft.getColor
  let cr := s1.patternRight.getColor
  { state := s1
    colorLeft := cl
    colorRight := cr
    pushes := transPushes ++ [(cl, cr)]
    interval := interval }

/-- Lines 119–120: the worker initializes its local `colorLeft` and
`colorRight` — its record of the last displayed colors — to
`{ 0.0f, 0.0f, 0.0f, 0.0f }`, regardless of the constructor's default color. -/
def workerInitColor : Color := Color.mk 0 0 0 0

/-- The first iteration of the worker loop after `worker()` starts: the local
colors hold their line 119–120 initial values. -/
def workerFirstTick (s : HandlerState) : TickResult :=
  workerTick s workerInitColor workerInitColor

end RgbLightHandler

/-- All four channels of a color lie in `[0, 1]`. -/
def colorInRange (c : Color) : Prop :=
  0 ≤ c.r ∧ c.r ≤ 1 ∧ 0 ≤ c.g ∧ c.g ≤ 1 ∧ 0 ≤ c.b ∧ c.b ≤ 1 ∧ 0 ≤ c.w ∧ c.w ≤ 1

/-- The color with all four channels equal to `x`. -/
def Color.uniform (x : ℚ) : Color := Color.mk x x x x

/-- Concrete test input: all channels off. -/
def blackColor : Color := Color.mk 0 0 0 0

/-- Concrete test input: all channels full on. -/
def whiteColor : Color := Color.mk 1 1 1 1

/-- Concrete test handler: constructed with transitions enabled
(`transitionRefreshInterval = R`, `transitionTime = D`), then `setPatterns`
with a constant all-on pattern, as a transition trigger. -/
def sampleState (R D : ℕ) : HandlerState :=
  RgbLightHandler.setPatterns
    (RgbLightHandler.mkTransitions blackColor 20 R D)
    (RgbLightConstant whiteColor 30)

/-! ## Loop lemmas -/

theorem transLoop_nan (ld rd : Color) (fuel i : ℕ) (lc rc : Color) :
    transLoop FloatQ.nan ld rd fuel i lc rc = [] := by
  cases fuel with
  | zero => rfl
  | succ n => simp [transLoop, FloatQ.ltGuard]

theorem transLoop_inf_length (ld rd : Color) :
    ∀ (fuel i : ℕ) (lc rc : Color),
      (transLoop FloatQ.inf ld rd fuel i lc rc).length = fuel := by
  intro fuel
  induction fuel with
  | zero => intro i lc rc; rfl
  | succ n ih =>
    intro i lc rc
    simp [transLoop, FloatQ.ltGuard, ih]

theorem transLoop_fin_trace (q : ℚ) (ld rd : Color) :
    ∀ (fuel i : ℕ), ⌈q⌉₊ ≤ i + fuel → ∀ (lc rc : Color),
      transLoop (FloatQ.fin q) ld rd fuel i lc rc =
        (List.range (⌈q⌉₊ - i)).map
          (fun k => ((stepColor ld)^[k + 1] lc, (stepColor rd)^[k + 1] rc)) := by
  intro fuel
  induction fuel with
  | zero =>
    intro i h lc rc
    have h0 : ⌈q⌉₊ - i = 0 := by omega
    simp [transLoop, h0]
  | succ n ih =>
    intro i h lc rc
    by_cases hg : (i : ℚ) < q
    · have hi : i < ⌈q⌉₊ := Nat.lt_ceil.mpr hg
      have hsub : ⌈q⌉₊ - i = (⌈q⌉₊ - (i + 1)) + 1 := by omega
      have hrec := ih (i + 1) (by omega) (stepColor ld lc) (stepColor rd rc)
      simp only [transLoop, FloatQ.ltGuard, hg, decide_True, if_true, hrec, hsub,
        List.range_succ_eq_map, List.map_cons, List.map_map]
      refine congrArg₂ List.cons ?_ ?_
      · simp
      · refine List.map_congr_left ?_
        intro k _
        simp [Function.comp_def, Function.iterate_succ_apply]
    · have hq : q ≤ i := le_of_not_lt hg
      have h0 : ⌈q⌉₊ - i = 0 := by
        have := Nat.ceil_le.mpr hq
        omega
      simp [transLoop, FloatQ.ltGuard, hg, h0]

theorem clamp01_nonneg (x : ℚ) : 0 ≤ clamp01 x := le_max_right _ _

theorem clamp01_le_one (x : ℚ) : clamp01 x ≤ 1 :=
  max_le (min_le_right _ _) zero_le_one

theorem stepColor_inRange (d c : Color) : colorInRange (stepColor d c) := by
  refine ⟨?_, ?_, ?_, ?_, ?_, ?_, ?_, ?_⟩ <;>
    first
      | exact clamp01_nonneg _
      | exact clamp01_le_one _

theorem transLoop_mem_inRange (m : FloatQ) (ld rd : Color) :
    ∀ (fuel i : ℕ) (lc rc : Color) (pr : Color × Color),
      pr ∈ transLoop m ld rd fuel i lc rc →
      colorInRange pr.1 ∧ colorInRange pr.2 := by
  intro fuel
  induction fuel with
  | zero => intro i lc rc pr hpr; simp [transLoop] at hpr
  | succ n ih =>
    intro i lc rc pr hpr
    by_cases hg : m.ltGuard i
    · simp only [transLoop, hg, if_true, List.mem_cons] at hpr
      rcases hpr with h | h
      · subst h
        exact ⟨stepColor_inRange _ _, stepColor_inRange _ _⟩
      · exact ih (i + 1) _ _ pr h
    · simp [transLoop, hg] at hpr

/-! ## Transition lemmas -/

theorem transitionBoth_fin_trace (s : HandlerState) (lf rf : Color)
    (hR : s.transitionRefreshInterval ≠ 0)
    (hD : s.transitionTime ≤ intLoopFuel) (hD0 : s.transitionTime ≠ 0) :
    RgbLightHandler.transitionBoth s lf rf =
      (List.range ⌈(s.transitionTime : ℚ) / (s.transitionRefreshInterval : ℚ)⌉₊).map
        (fun k =>
          ((stepColor (deltaColor
              (FloatQ.fin ((s.transitionTime : ℚ) / (s.transitionRefreshInterval : ℚ)))
              lf s.patternLeft.getColor))^[k + 1] lf,
           (stepColor (deltaColor
              (FloatQ.fin ((s.transitionTime : ℚ) / (s.transitionRefreshInterval : ℚ)))
              rf s.patternRight.getColor))^[k + 1] rf)) := by
  have hRq : (0 : ℚ) < (s.transitionRefreshInterval : ℚ) := by
    exact_mod_cast Nat.pos_of_ne_zero hR
  have hDq : (0 : ℚ) < (s.transitionTime : ℚ) := by
    exact_mod_cast Nat.pos_of_ne_zero hD0
  have hqpos : 0 < (s.transitionTime : ℚ) / (s.transitionRefreshInterval : ℚ) :=
    div_pos hDq hRq
  have hqle : (s.transitionTime : ℚ) / (s.transitionRefreshInterval : ℚ) ≤
      (s.transitionTime : ℚ) := by
    apply div_le_self (le_of_lt hDq)
    exact_mod_cast Nat.one_le_iff_ne_zero.mpr hR
  have hceil : ⌈(s.transitionTime : ℚ) / (s.transitionRefreshInterval : ℚ)⌉₊ ≤
      intLoopFuel := by
    refine le_trans (Nat.ceil_le.mpr ?_) hD
    exact_mod_cast hqle
  unfold RgbLightHandler.transitionBoth
  simp only [maxiOf, hR, if_false, FloatQ.isZero, decide_eq_true_eq]
  rw [if_neg (by simp [ne_of_gt hqpos])]
  rw [transLoop_fin_trace _ _ _ intLoopFuel 0 (by omega)]
  simp

theorem transitionBoth_length_eq_ceil (s : HandlerState) (lf rf : Color)
    (hR : s.transitionRefreshInterval ≠ 0)
    (hD : s.transitionTime ≤ intLoopFuel) :
    (RgbLightHandler.transitionBoth s lf rf).length =
      ⌈(s.transitionTime : ℚ) / (s.transitionRefreshInterval : ℚ)⌉₊ := by
  by_cases hD0 : s.transitionTime = 0
  · unfold RgbLightHandler.transitionBoth
    simp [maxiOf, hR, hD0, FloatQ.isZero]
  · rw [transitionBoth_fin_trace s lf rf hR hD hD0]
    simp

theorem transitionBoth_nil_iff (s : HandlerState) (lf rf : Color)
    (hR : s.transitionRefreshInterval ≠ 0)
    (hD : s.transitionTime ≤ intLoopFuel) :
    (RgbLightHandler.transitionBoth s lf rf = [] ↔ s.transitionTime = 0) := by
  rw [← List.length_eq_zero, transitionBoth_length_eq_ceil s lf rf hR hD]
  rw [Nat.ceil_eq_zero]
  constructor
  · intro h
    have hRq : (0 : ℚ) < (s.transitionRefreshInterval : ℚ) := by
      exact_mod_cast Nat.pos_of_ne_zero hR
    by_contra hD0
    have hDq : (0 : ℚ) < (s.transitionTime : ℚ) := by
      exact_mod_cast Nat.pos_of_ne_zero hD0
    exact absurd h (not_le.mpr (div_pos hDq hRq))
  · intro h
    simp [h]

theorem clamp01_of_mem (x : ℚ) (h0 : 0 ≤ x) (h1 : x ≤ 1) : clamp01 x = x := by
  unfold clamp01
  rw [min_eq_left h1, max_eq_left h0]

theorem stepColor_uniform (x y : ℚ) :
    stepColor (Color.uniform x) (Color.uniform y) = Color.uniform (clamp01 (y + x)) := by
  simp [stepColor, Color.uniform]

theorem iterate_uniform_ramp (N : ℕ) (hN : N ≠ 0) :
    ∀ n : ℕ, n ≤ N →
      (stepColor (Color.uniform (1 / (N : ℚ))))^[n] (Color.uniform 0) =
        Color.uniform ((n : ℚ) / (N : ℚ)) := by
  have hNq : (0 : ℚ) < (N : ℚ) := by exact_mod_cast Nat.pos_of_ne_zero hN
  intro n
  induction n with
  | zero => intro _; simp [Color.uniform]
  | succ k ih =>
    intro hk
    rw [Function.iterate_succ_apply', ih (by omega), stepColor_uniform]
    have hsum : (k : ℚ) / (N : ℚ) + 1 / (N : ℚ) = ((k : ℚ) + 1) / (N : ℚ) := by
      ring
    have h0 : 0 ≤ ((k : ℚ) + 1) / (N : ℚ) := by positivity
    have h1 : ((k : ℚ) + 1) / (N : ℚ) ≤ 1 := by
      rw [div_le_one hNq]
      exact_mod_cast hk
    rw [hsum, clamp01_of_mem _ h0 h1]
    push_cast
    rfl

/-! ## Claims -/

theorem deltaColor_uniform (q a b : ℚ) :
    deltaColor (FloatQ.fin q) (Color.uniform a) (Color.uniform b) =
      Color.uniform ((b - a) / q) := by
  simp [deltaColor, FloatQ.divDelta, Color.uniform]

/-- Evaluation helper: a transition with `transitionTime = transitionRefreshInterval
= 10` from black to a constant white target pushes the single pair (white, white). -/
theorem transitionBoth_ten_ten :
    RgbLightHandler.transitionBoth (sampleState 10 10) blackColor blackColor =
      [(whiteColor, whiteColor)] := by
  rw [transitionBoth_fin_trace (sampleState 10 10) blackColor blackColor
    (by norm_num [sampleState, RgbLightHandler.setPatterns, RgbLightHandler.mkTransitions])
    (by norm_num [sampleState, RgbLightHandler.setPatterns, RgbLightHandler.mkTransitions,
      intLoopFuel])
    (by norm_num [sampleState, RgbLightHandler.setPatterns, RgbLightHandler.mkTransitions])]
  have hfields : ((sampleState 10 10).transitionTime : ℚ) /
      ((sampleState 10 10).transitionRefreshInterval : ℚ) = 1 := by
    norm_num [sampleState, RgbLightHandler.setPatterns, RgbLightHandler.mkTransitions]
  have hl : (sampleState 10 10).patternLeft.getColor = Color.uniform 1 := rfl
  have hr : (sampleState 10 10).patternRight.getColor = Color.uniform 1 := rfl
  rw [hfields, hl, hr]
  have hb : blackColor = Color.uniform 0 := rfl
  rw [hb, deltaColor_uniform]
  have hd : ((1 : ℚ) - 0) / 1 = 1 := by norm_num
  rw [hd]
  have hstep : (stepColor (Color.uniform 1))^[1] (Color.uniform 0) = whiteColor := by
    rw [Function.iterate_one, stepColor_uniform, zero_add,
      clamp01_of_mem 1 zero_le_one le_rfl]
    rfl
  simp only [show ⌈(1 : ℚ)⌉₊ = 1 by simp, List.range_succ, List.range_zero,
    List.nil_append, List.map_cons, List.map_nil, zero_add, hstep]

/-- C1 counterexample: with `transitionTime = 5` and
`transitionRefreshInterval = 10`, the truncated quotient `5 / 10` is `0`, so
the claim predicts no pushed colors; the code computes the *float* quotient
`0.5`, the loop `for (int i = 0; i < maxi; i++)` runs once, and one pair is
pushed. -/
theorem claim1_counterexample :
    (RgbLightHandler.transitionBoth (sampleState 10 5) blackColor blackColor).length ≠
      5 / 10 := by
  rw [transitionBoth_length_eq_ceil (sampleState 10 5) blackColor blackColor
    (by norm_num [sampleState, RgbLightHandler.setPatterns, RgbLightHandler.mkTransitions])
    (by norm_num [sampleState, RgbLightHandler.setPatterns, RgbLightHandler.mkTransitions,
      intLoopFuel])]
  have hfields : ((sampleState 10 5).transitionTime : ℚ) /
      ((sampleState 10 5).transitionRefreshInterval : ℚ) = 1 / 2 := by
    norm_num [sampleState, RgbLightHandler.setPatterns, RgbLightHandler.mkTransitions]
  rw [hfields]
  have : (0 : ℕ) < ⌈(1 / 2 : ℚ)⌉₊ := Nat.ceil_pos.mpr (by norm_num)
  omega

/-- C1 (amended): over the exact-arithmetic model of the float computation,
a transition with refresh interval `R ≠ 0` and duration `D` within the loop
counter's range pushes exactly `⌈D / R⌉` color pairs (the *ceiling*, not the
truncation, of `D / R`), and pushes none exactly when `D = 0`. -/
theorem claim1_step_count (s : HandlerState) (lf rf : Color)
    (hR : s.transitionRefreshInterval ≠ 0)
    (hD : s.transitionTime ≤ intLoopFuel) :
    (RgbLightHandler.transitionBoth s lf rf).length =
      ⌈(s.transitionTime : ℚ) / (s.transitionRefreshInterval : ℚ)⌉₊ ∧
    (RgbLightHandler.transitionBoth s lf rf = [] ↔ s.transitionTime = 0) :=
  ⟨transitionBoth_length_eq_ceil s lf rf hR hD,
   transitionBoth_nil_iff s lf rf hR hD⟩

/-- C1 witness: the amended statement instantiated at duration 5 ms, refresh
interval 10 ms. -/
theorem claim1_step_count_witness :
    ((RgbLightHandler.transitionBoth (sampleState 10 5) blackColor blackColor).length =
      ⌈((sampleState 10 5).transitionTime : ℚ) /
        ((sampleState 10 5).transitionRefreshInterval : ℚ)⌉₊ ∧
     (RgbLightHandler.transitionBoth (sampleState 10 5) blackColor blackColor = [] ↔
        (sampleState 10 5).transitionTime = 0)) :=
  claim1_step_count (sampleState 10 5) blackColor blackColor
    (by norm_num [sampleState, RgbLightHandler.setPatterns, RgbLightHandler.mkTransitions])
    (by norm_num [sampleState, RgbLightHandler.setPatterns, RgbLightHandler.mkTransitions,
      intLoopFuel])

/-- C2: with `transitionRefreshInterval = 0` and `transitionTime = 1`, the
float quotient `maxi` is `+inf`, the `maxi == 0.0` short-circuit does *not*
fire, and the loop guard `(float)i < maxi` holds for every `int i`: the engine
pushes a color pair on every one of the `2^31` defined-behavior iterations of
the loop (after which the `int` counter overflows) instead of returning
immediately with no pushes. -/
theorem claim2_zero_interval_loops :
    (RgbLightHandler.transitionBoth (sampleState 0 1) blackColor blackColor).length =
      intLoopFuel ∧ 0 < intLoopFuel := by
  constructor
  · have h : RgbLightHandler.transitionBoth (sampleState 0 1) blackColor blackColor =
        transLoop FloatQ.inf
          (deltaColor FloatQ.inf blackColor (sampleState 0 1).patternLeft.getColor)
          (deltaColor FloatQ.inf blackColor (sampleState 0 1).patternRight.getColor)
          intLoopFuel 0 blackColor blackColor := rfl
    rw [h, transLoop_inf_length]
  · norm_num [intLoopFuel]

/-- C5: every color pair pushed from within a transition has all channels of
both colors clamped into `[0, 1]`, whatever the deltas are. -/
theorem claim5_pushes_clamped (s : HandlerState) (lf rf : Color)
    (pr : Color × Color)
    (hpr : pr ∈ RgbLightHandler.transitionBoth s lf rf) :
    colorInRange pr.1 ∧ colorInRange pr.2 := by
  unfold RgbLightHandler.transitionBoth at hpr
  by_cases hz : (maxiOf s.transitionTime s.transitionRefreshInterval).isZero = true
  · simp [hz] at hpr
  · simp only [Bool.not_eq_true] at hz
    simp only [hz, Bool.false_eq_true, if_false] at hpr
    exact transLoop_mem_inRange _ _ _ _ _ _ _ pr hpr

/-- C5 witness: the single pair pushed by a 1-step transition to constant
white. -/
theorem claim5_pushes_clamped_witness :
    colorInRange (whiteColor, whiteColor).1 ∧ colorInRange (whiteColor, whiteColor).2 :=
  claim5_pushes_clamped (sampleState 10 10) blackColor blackColor
    (whiteColor, whiteColor)
    (by rw [transitionBoth_ten_ten]; exact List.mem_singleton_self _)

/-- C3 counterexample: a handler with transitions disabled and the dirty flag
set (a `setPatternLeft` just happened).  The claim says the loop iteration
clears `patternsChanged`; in the code the only clearing site is inside the
`patternsChanged && transitionsEnabled` branch, so with transitions disabled
the flag stays set after the iteration. -/
theorem claim3_counterexample :
    (RgbLightHandler.setPatternLeft (RgbLightHandler.mkDefault blackColor 20)
        (RgbLightConstant (Color.mk (1/2) 0 0 0) 30)).patternsChanged = true ∧
    (RgbLightHandler.setPatternLeft (RgbLightHandler.mkDefault blackColor 20)
        (RgbLightConstant (Color.mk (1/2) 0 0 0) 30)).transitionsEnabled = false ∧
    (RgbLightHandler.workerTick
        (RgbLightHandler.setPatternLeft (RgbLightHandler.mkDefault blackColor 20)
          (RgbLightConstant (Color.mk (1/2) 0 0 0) 30))
        blackColor blackColor).state.patternsChanged = true := by
  refine ⟨rfl, rfl, ?_⟩
  simp [RgbLightHandler.workerTick, RgbLightHandler.setPatternLeft,
    RgbLightHandler.mkDefault]

/-- C3 (amended): after one iteration of the worker loop body, the dirty flag
is `patternsChanged && !transitionsEnabled` — i.e. the flag is cleared exactly
when a transition ran (transitions enabled); with transitions disabled a set
flag remains set. -/
theorem claim3_flag_after_tick (s : HandlerState) (cl cr : Color) :
    (RgbLightHandler.workerTick s cl cr).state.patternsChanged =
      (s.patternsChanged && !s.transitionsEnabled) := by
  cases hp : s.patternsChanged <;> cases ht : s.transitionsEnabled <;>
    simp [RgbLightHandler.workerTick, hp, ht]

/-- C6: in every iteration of the worker loop, the sleep interval equals the
minimum of the installed left and right patterns' refresh intervals. -/
theorem claim6_interval_is_min (s : HandlerState) (cl cr : Color) :
    (RgbLightHandler.workerTick s cl cr).interval =
      min s.patternLeft.refreshInterval s.patternRight.refreshInterval := by
  by_cases h : s.patternsChanged && s.transitionsEnabled <;>
    simp [RgbLightHandler.workerTick, h]

/-- C7: with transitions disabled, after `setPatternLeft` with a constant
`[1/2, 0, 0, 0]` pattern, the very next worker iteration pushes exactly one
pair — the sampled `([1/2,0,0,0], defaultColor)` — with no interpolated colors
pushed before it. -/
theorem claim7_disabled_snap (d : Color) (civ civ2 : ℕ) (cl cr : Color) :
    (RgbLightHandler.workerTick
        (RgbLightHandler.setPatternLeft (RgbLightHandler.mkDefault d civ)
          (RgbLightConstant (Color.mk (1/2) 0 0 0) civ2)) cl cr).pushes =
      [(Color.mk (1/2) 0 0 0, d)] := by
  simp [RgbLightHandler.workerTick, RgbLightHandler.setPatternLeft,
    RgbLightHandler.mkDefault, RgbLightConstant]

/-- C4: default color `[0,0,0,0]`, transitions enabled with
`transitionRefreshInterval = 10` and `transitionTime = 100`, then
`setPatterns` with constant `[1,1,1,1]`: the first worker iteration runs a
transition of exactly 10 interpolation pushes, each channel rising by `1/10`
per step (step `k` pushes `(k+1)/10` on all channels), the tenth push being
`[1,1,1,1]`, followed by the normal sampled push of the new patterns. -/
theorem claim4_concrete_ramp (civ civ2 : ℕ) :
    (RgbLightHandler.workerFirstTick
        (RgbLightHandler.setPatterns
          (RgbLightHandler.mkTransitions (Color.mk 0 0 0 0) civ 10 100)
          (RgbLightConstant (Color.mk 1 1 1 1) civ2))).pushes =
      ((List.range 10).map fun (k : ℕ) =>
        (Color.uniform (((k : ℚ) + 1) / 10), Color.uniform (((k : ℚ) + 1) / 10))) ++
      [(Color.mk 1 1 1 1, Color.mk 1 1 1 1)] := by
  have hpush : (RgbLightHandler.workerFirstTick
        (RgbLightHandler.setPatterns
          (RgbLightHandler.mkTransitions (Color.mk 0 0 0 0) civ 10 100)
          (RgbLightConstant (Color.mk 1 1 1 1) civ2))).pushes =
      RgbLightHandler.transitionBoth
          (RgbLightHandler.setPatterns
            (RgbLightHandler.mkTransitions (Color.mk 0 0 0 0) civ 10 100)
            (RgbLightConstant (Color.mk 1 1 1 1) civ2))
          RgbLightHandler.workerInitColor RgbLightHandler.workerInitColor ++
        [(Color.mk 1 1 1 1, Color.mk 1 1 1 1)] := rfl
  rw [hpush]
  congr 1
  rw [transitionBoth_fin_trace _ _ _
    (by norm_num [RgbLightHandler.setPatterns, RgbLightHandler.mkTransitions])
    (by norm_num [RgbLightHandler.setPatterns, RgbLightHandler.mkTransitions, intLoopFuel])
    (by norm_num [RgbLightHandler.setPatterns, RgbLightHandler.mkTransitions])]
  have hfields : (((RgbLightHandler.setPatterns
        (RgbLightHandler.mkTransitions (Color.mk 0 0 0 0) civ 10 100)
        (RgbLightConstant (Color.mk 1 1 1 1) civ2)).transitionTime : ℚ)) /
      (((RgbLightHandler.setPatterns
        (RgbLightHandler.mkTransitions (Color.mk 0 0 0 0) civ 10 100)
        (RgbLightConstant (Color.mk 1 1 1 1) civ2)).transitionRefreshInterval : ℚ)) =
      10 := by
    norm_num [RgbLightHandler.setPatterns, RgbLightHandler.mkTransitions]
  rw [hfields]
  have hl : (RgbLightHandler.setPatterns
      (RgbLightHandler.mkTransitions (Color.mk 0 0 0 0) civ 10 100)
      (RgbLightConstant (Color.mk 1 1 1 1) civ2)).patternLeft.getColor =
      Color.uniform 1 := rfl
  have hr : (RgbLightHandler.setPatterns
      (RgbLightHandler.mkTransitions (Color.mk 0 0 0 0) civ 10 100)
      (RgbLightConstant (Color.mk 1 1 1 1) civ2)).patternRight.getColor =
      Color.uniform 1 := rfl
  have hw : RgbLightHandler.workerInitColor = Color.uniform 0 := rfl
  rw [hl, hr, hw, deltaColor_uniform]
  have hd : ((1 : ℚ) - 0) / 10 = 1 / 10 := by norm_num
  rw [hd]
  have hceil : ⌈(10 : ℚ)⌉₊ = 10 := by
    norm_num
  rw [hceil]
  refine List.map_congr_left ?_
  intro k hk
  have hk10 : k + 1 ≤ 10 := by
    have := List.mem_range.mp hk
    omega
  have hiter := iterate_uniform_ramp 10 (by norm_num) (k + 1) hk10
  push_cast at hiter
  rw [hiter]

/-- C8: `stop()` on a non-running handler leaves the state unchanged (a
no-op), and a second `stop()` immediately after a first one is always a
no-op, since the first call leaves `isRunning` false. -/
theorem claim8_stop_noop (s : HandlerState) :
    (s.isRunning = false → RgbLightHandler.stop s = s) ∧
    RgbLightHandler.stop (RgbLightHandler.stop s) = RgbLightHandler.stop s ∧
    (RgbLightHandler.stop s).isRunning = false := by
  by_cases h : s.isRunning <;> simp [RgbLightHandler.stop, h]

/-- C8 witness: a freshly constructed (never started) handler, and a handler
stopped right after its worker began. -/
theorem claim8_stop_noop_witness :
    (RgbLightHandler.stop (RgbLightHandler.mkDefault blackColor 20) =
        RgbLightHandler.mkDefault blackColor 20) ∧
    RgbLightHandler.stop
        (RgbLightHandler.stop
          (RgbLightHandler.workerBegin (RgbLightHandler.mkDefault blackColor 20))) =
      RgbLightHandler.stop
        (RgbLightHandler.workerBegin (RgbLightHandler.mkDefault blackColor 20)) :=
  ⟨(claim8_stop_noop (RgbLightHandler.mkDefault blackColor 20)).1 rfl,
   (claim8_stop_noop
     (RgbLightHandler.workerBegin (RgbLightHandler.mkDefault blackColor 20))).2.1⟩

/-- C10: the worker initializes its last-displayed-color record to
`[0,0,0,0]` for both channels; a transition triggered before the first
sampling tick therefore interpolates from `[0,0,0,0]`, and the whole first
iteration is independent of the constructor's default color. -/
theorem claim10_first_tick_from_zero (d d' : Color) (civ R D : ℕ) (p : Pattern) :
    RgbLightHandler.workerInitColor = Color.mk 0 0 0 0 ∧
    RgbLightHandler.workerFirstTick
        (RgbLightHandler.setPatterns (RgbLightHandler.mkTransitions d civ R D) p) =
      RgbLightHandler.workerFirstTick
        (RgbLightHandler.setPatterns (RgbLightHandler.mkTransitions d' civ R D) p) ∧
    (RgbLightHandler.workerFirstTick
        (RgbLightHandler.setPatterns (RgbLightHandler.mkTransitions d civ R D) p)).pushes =
      RgbLightHandler.transitionBoth
          (RgbLightHandler.setPatterns (RgbLightHandler.mkTransitions d civ R D) p)
          RgbLightHandler.workerInitColor RgbLightHandler.workerInitColor ++
        [(p.getColor, p.getColor)] :=
  ⟨rfl, rfl, rfl⟩
